import Mathlib

/-!
Verification of the MileTracker backend (FastAPI + SQL data layer).

This file gives a shallow embedding of the data model and of the operations
of `database.py` (class `DatabaseManager`) and `main.py` (the HTTP handlers),
and proves the testable properties stated in the specification against it.

Modelling conventions:
* SQL tables become Lean lists of row structures; the single-row
  `trip_stats` cache (only row id 1 is ever used) becomes an `Option`.
* SQL floats (`distance`, `potential`, coordinates) are modelled as `ℚ`.
* Python `round(x, n)` is round-half-to-even on `ℚ` (`pyRound`), Python
  `int(x)` is truncation toward zero (`pyInt`).
* The declarative referential actions of the schema
  (`trip_routes.trip_id ON DELETE CASCADE`, `receipts.trip_id ON DELETE
  SET NULL`) are part of the state transition of `delete_trip`.
* Handlers that can raise `HTTPException` return `Except ℕ α`, carrying the
  status code.
-/

namespace MileTracker

/-! ### Python numeric helpers (`round`, `int`, and main.py's formatters) -/

/-- Python `round` to an integer: round half to even on rationals. -/
def pyRoundInt (x : ℚ) : ℤ :=
  let f := ⌊x⌋
  let r := x - (f : ℚ)
  if r < 1/2 then f
  else if 1/2 < r then f + 1
  else if 2 ∣ f then f else f + 1

/-- Python `round(x, n)`. -/
def pyRound (x : ℚ) (n : ℕ) : ℚ := (pyRoundInt (x * 10 ^ n) : ℚ) / 10 ^ n

/-- Python `int(x)` on a rational: truncation toward zero. -/
def pyInt (q : ℚ) : ℤ := Int.tdiv q.num (q.den : ℤ)

/-- main.py `format_distance`: whole numbers unchanged, else round to 1 decimal. -/
def format_distance (d : ℚ) : ℚ := if d.den = 1 then d else pyRound d 1

/-- main.py `format_potential`: round to 2 decimals. -/
def format_potential (p : ℚ) : ℚ := pyRound p 2

/-! ### Data model (tables from database.py) -/

/-- A row of the `trips` table (timestamps columns omitted: no claim touches
them). -/
structure TripRow where
  id : ℕ
  date : String
  start_time : String
  end_time : String
  start_location : String
  end_location : String
  distance : ℚ
  potential : ℚ
  type : String
  notes : String
deriving DecidableEq

/-- A row of the `receipts` table. -/
structure ReceiptRow where
  id : String
  url : String
  name : String
  trip_id : Option ℕ
  file_size : ℕ
  mime_type : String
deriving DecidableEq

/-- A row of the `trip_routes` table. -/
structure RouteRow where
  trip_id : ℕ
  latitude : ℚ
  longitude : ℚ
  sequence_order : ℕ
deriving DecidableEq

/-- A row of the `locations` table. -/
structure LocationRow where
  id : ℕ
  latitude : ℚ
  longitude : ℚ
  timestamp : ℤ
  accuracy : Option ℚ
  altitude : Option ℚ
  speed : Option ℚ
deriving DecidableEq

/-- The `trip_stats` cache row (id = 1). -/
structure StatsRow where
  total_drives : ℕ
  total_miles : ℚ
  total_logged : ℚ
  business_miles : ℚ
  personal_miles : ℚ
deriving DecidableEq

/-- The database state relevant to trips, receipts, routes, locations and the
stats cache. `next_trip_id` / `next_location_id` model the autoincrement
sequences. -/
structure DBState where
  trips : List TripRow
  trip_routes : List RouteRow
  receipts : List ReceiptRow
  locations : List LocationRow
  trip_stats : Option StatsRow
  next_trip_id : ℕ
  next_location_id : ℕ
deriving DecidableEq

/-! ### Trip operations (database.py) -/

/-- `DatabaseManager.get_trip_by_id`. -/
def get_trip_by_id (s : DBState) (trip_id : ℕ) : Option TripRow :=
  s.trips.find? (fun t => decide (t.id = trip_id))

/-- The column values passed to `trips_table.insert().values(**trip_data)`. -/
structure TripData where
  date : String
  start_time : String
  end_time : String
  start_location : String
  end_location : String
  distance : ℚ
  potential : ℚ
  type : String
  notes : String
deriving DecidableEq

/-- The row inserted by `create_trip`: the passed column values under the next
autoincrement id. -/
def rowOf (s : DBState) (d : TripData) : TripRow :=
  { id := s.next_trip_id, date := d.date, start_time := d.start_time,
    end_time := d.end_time, start_location := d.start_location,
    end_location := d.end_location, distance := d.distance,
    potential := d.potential, type := d.type, notes := d.notes }

/-- `DatabaseManager.create_trip`: insert with the next autoincrement id, then
re-read the row by id. -/
def create_trip (s : DBState) (d : TripData) : Option TripRow × DBState :=
  let s' := { s with trips := s.trips ++ [rowOf s d], next_trip_id := s.next_trip_id + 1 }
  (get_trip_by_id s' (rowOf s d).id, s')

/-- One `SET key = value` clause of the dynamic update, restricted (as in the
source) to the allow-listed keys. -/
def applyKw (t : TripRow) (kv : String × String) : TripRow :=
  if kv.1 = "type" then { t with type := kv.2 }
  else if kv.1 = "notes" then { t with notes := kv.2 }
  else t

/-- All `SET` clauses of the dynamic update applied in order. -/
def applyKwList (t : TripRow) (kvs : List (String × String)) : TripRow :=
  kvs.foldl applyKw t

/-- `DatabaseManager.update_trip`: keep only kwargs whose key is in
`['type', 'notes']`; if none remain, return the current row unchanged,
otherwise run the `UPDATE` and re-read the row. -/
def update_trip (s : DBState) (trip_id : ℕ) (kwargs : List (String × String)) :
    Option TripRow × DBState :=
  let allowed := kwargs.filter (fun kv => decide (kv.1 = "type" ∨ kv.1 = "notes"))
  if allowed.isEmpty then (get_trip_by_id s trip_id, s)
  else
    let s' := { s with
      trips := s.trips.map (fun t => if t.id = trip_id then applyKwList t allowed else t) }
    (get_trip_by_id s' trip_id, s')

/-- `DatabaseManager.delete_trip` together with the schema's referential
actions: `trip_routes` rows cascade-delete, `receipts.trip_id` is set to NULL.
Returns whether at least one trip row was deleted. -/
def delete_trip (s : DBState) (trip_id : ℕ) : Bool × DBState :=
  let deleted := (s.trips.filter (fun t => decide (t.id = trip_id))).length
  let s' := { s with
    trips := s.trips.filter (fun t => !(decide (t.id = trip_id))),
    trip_routes := s.trip_routes.filter (fun rp => !(decide (rp.trip_id = trip_id))),
    receipts := s.receipts.map (fun rc =>
      if rc.trip_id = some trip_id then { rc with trip_id := none } else rc) }
  (decide (0 < deleted), s')

/-! ### Statistics operations (database.py) -/

/-- The aggregate `SELECT COUNT(*), SUM(distance), SUM(potential), SUM(CASE
WHEN type = 'business' ...), SUM(CASE WHEN type = 'personal' ...)` over the
live trips table. -/
def computeAggregate (trips : List TripRow) : StatsRow :=
  { total_drives := trips.length,
    total_miles := (trips.map (fun t => t.distance)).sum,
    total_logged := (trips.map (fun t => t.potential)).sum,
    business_miles := (trips.map (fun t => if t.type = "business" then t.distance else 0)).sum,
    personal_miles := (trips.map (fun t => if t.type = "personal" then t.distance else 0)).sum }

/-- `DatabaseManager.calculate_trip_stats`: recompute the aggregate and upsert
it as the cache row with id 1. -/
def calculate_trip_stats (s : DBState) : StatsRow × DBState :=
  let stats := computeAggregate s.trips
  (stats, { s with trip_stats := some stats })

/-- `DatabaseManager.get_trip_stats`: return the cached row if present,
otherwise fall back to the aggregate path. -/
def get_trip_stats (s : DBState) : StatsRow × DBState :=
  match s.trip_stats with
  | some r => (r, s)
  | none => calculate_trip_stats s

/-- `DatabaseManager.update_trip_stats`. -/
def update_trip_stats (s : DBState) : StatsRow × DBState := calculate_trip_stats s

/-! ### Trip endpoints (main.py) -/

inductive TripType where
  | personal
  | business
deriving DecidableEq

/-- The `.value` of the `TripType` enum. -/
def TripType.value : TripType → String
  | TripType.personal => "personal"
  | TripType.business => "business"

/-- Request body of `POST /api/trips` (camelCase wire schema). -/
structure TripCreate where
  date : String
  startTime : String
  endTime : String
  startLocation : String
  endLocation : String
  distance : ℚ
  potential : ℚ
  type : TripType
  notes : String
deriving DecidableEq

/-- Wire-schema trip object returned by the trip endpoints. -/
structure TripResp where
  id : ℕ
  date : String
  startTime : String
  endTime : String
  startLocation : String
  endLocation : String
  distance : ℚ
  potential : ℚ
  type : String
  notes : String
deriving DecidableEq

/-- The response reshaping done inline in every trip handler: snake_case to
camelCase plus `format_distance`/`format_potential`. -/
def tripToResp (t : TripRow) : TripResp :=
  { id := t.id, date := t.date, startTime := t.start_time, endTime := t.end_time,
    startLocation := t.start_location, endLocation := t.end_location,
    distance := format_distance t.distance, potential := format_potential t.potential,
    type := t.type, notes := t.notes }

/-- The `trip_dict` built by the POST handler: snake_case names and the
formatted numbers. -/
def tripDataOf (td : TripCreate) : TripData :=
  { date := td.date, start_time := td.startTime, end_time := td.endTime,
    start_location := td.startLocation, end_location := td.endLocation,
    distance := format_distance td.distance, potential := format_potential td.potential,
    type := td.type.value, notes := td.notes }

/-- `POST /api/trips`: format the incoming numbers, insert, recompute the
stats cache, and return the reshaped row. -/
def create_trip_endpoint (s : DBState) (td : TripCreate) : Option (TripResp × DBState) :=
  let p := create_trip s (tripDataOf td)
  let s₂ := (update_trip_stats p.2).2
  p.1.map (fun t => (tripToResp t, s₂))

/-- `GET /api/trips/{trip_id}`. -/
def get_trip_endpoint (s : DBState) (trip_id : ℕ) : Except ℕ TripResp :=
  match get_trip_by_id s trip_id with
  | none => Except.error 404
  | some t => Except.ok (tripToResp t)

/-- Request body of `PUT /api/trips/{trip_id}`: both fields optional. -/
structure TripUpdate where
  type : Option TripType
  notes : Option String
deriving DecidableEq

/-- The `update_data` dict built by the PUT handler. -/
def updateKwargs (u : TripUpdate) : List (String × String) :=
  (match u.type with
   | some t => [("type", t.value)]
   | none => []) ++
  (match u.notes with
   | some n => [("notes", n)]
   | none => [])

/-- `PUT /api/trips/{trip_id}`: apply the field-subset update, 404 when the trip is
missing, otherwise recompute the stats cache and return the reshaped row. -/
def update_trip_endpoint (s : DBState) (trip_id : ℕ) (u : TripUpdate) :
    Except ℕ (TripResp × DBState) :=
  let p := update_trip s trip_id (updateKwargs u)
  match p.1 with
  | none => Except.error 404
  | some t => Except.ok (tripToResp t, (update_trip_stats p.2).2)

/-- `DELETE /api/trips/{trip_id}`: 404 when nothing was deleted, otherwise
recompute the stats cache. -/
def delete_trip_endpoint (s : DBState) (trip_id : ℕ) : Except ℕ DBState :=
  let p := delete_trip s trip_id
  if p.1 = true then Except.ok (update_trip_stats p.2).2 else Except.error 404

/-- Response of `GET /api/trips/stats` (`int(...)` applied to each value). -/
structure StatsResp where
  totalDrives : ℤ
  totalMiles : ℤ
  totalLogged : ℤ
deriving DecidableEq

/-- `GET /api/trips/stats`. -/
def get_trip_stats_endpoint (s : DBState) : StatsResp × DBState :=
  let p := get_trip_stats s
  ({ totalDrives := (p.1.total_drives : ℤ), totalMiles := pyInt p.1.total_miles,
     totalLogged := pyInt p.1.total_logged }, p.2)

/-- The consistency invariant of claim C1: the cache row equals the aggregate
recomputed from the live trips table, and the stats endpoint reports exactly
those values as integers. -/
def statsConsistent (s : DBState) : Prop :=
  s.trip_stats = some (computeAggregate s.trips) ∧
  (get_trip_stats_endpoint s).1 =
    { totalDrives := ((computeAggregate s.trips).total_drives : ℤ),
      totalMiles := pyInt (computeAggregate s.trips).total_miles,
      totalLogged := pyInt (computeAggregate s.trips).total_logged }

/-! ### Receipt upload (main.py `upload_receipt`) -/

/-- Python `str.lower()` (character-wise). -/
def lowerStr (s : String) : String := String.mk (s.data.map Char.toLower)

/-- Python `str.split('.')` on the underlying characters. -/
def splitOnDot : List Char → List (List Char)
  | [] => [[]]
  | c :: cs =>
    if c = '.' then [] :: splitOnDot cs
    else
      match splitOnDot cs with
      | [] => [[c]]
      | g :: gs => (c :: g) :: gs

/-- Python truthiness of an optional string (`None` and `""` are falsy). -/
def truthy : Option String → Bool
  | none => false
  | some s => decide (s ≠ "")

/-- The handler's extension extraction:
`'.' + file.filename.split('.')[-1].lower()` when the filename is truthy and
contains a dot, else no extension. -/
def extOf : Option String → Option String
  | none => none
  | some fn =>
    if fn ≠ "" ∧ fn.data.contains '.' then
      some (String.mk ('.' :: ((splitOnDot fn.data).getLastD []).map Char.toLower))
    else none

def allowed_extensions : List String :=
  [".jpg", ".jpeg", ".png", ".gif", ".bmp", ".webp", ".tiff", ".tif"]

def allowed_mime_types : List String :=
  ["image/jpeg", "image/jpg", "image/png", "image/gif", "image/bmp", "image/webp",
   "image/tiff", "image/tif", "application/octet-stream"]

/-- The `mime_map` used to resolve a stored MIME type from the extension. -/
def mime_map : List (String × String) :=
  [(".jpg", "image/jpeg"), (".jpeg", "image/jpeg"), (".png", "image/png"),
   (".gif", "image/gif"), (".bmp", "image/bmp"), (".webp", "image/webp"),
   (".tiff", "image/tiff"), (".tif", "image/tiff")]

/-- Branch 1 of the validation: `file_extension in allowed_extensions`. -/
def extAllowed : Option String → Bool
  | some e => decide (e ∈ allowed_extensions)
  | none => false

/-- Branch 2 of the validation:
`file.content_type and file.content_type.lower() in allowed_mime_types`. -/
def mimeAllowed : Option String → Bool
  | some ct => decide (ct ≠ "") && decide (lowerStr ct ∈ allowed_mime_types)
  | none => false

/-- The multipart file as seen by the handler. -/
structure UploadFile where
  filename : Option String
  content_type : Option String
deriving DecidableEq

/-- The file-type validation of `upload_receipt`, returning `is_valid_file`
and the (possibly defaulted) `file_extension`. -/
def validate_upload (f : UploadFile) : Bool × Option String :=
  let fext := extOf f.filename
  if extAllowed fext then (true, fext)
  else if mimeAllowed f.content_type then (true, fext)
  else if !truthy f.content_type || decide (f.content_type = some "application/octet-stream") then
    (true, some (fext.getD ".jpg"))
  else (false, fext)

/-- `mime_type` resolution: keep a truthy, non-generic declared content type,
otherwise look the extension up in `mime_map`, defaulting to `image/jpeg`. -/
def resolve_mime (ct : Option String) (fext : String) : String :=
  if !truthy ct || decide (ct = some "application/octet-stream") then
    (mime_map.lookup fext).getD "image/jpeg"
  else ct.getD ""

/-- The stored receipt name: `file.filename or f"receipt{file_extension}"`. -/
def nameOf (filename : Option String) (file_extension : String) : String :=
  match filename with
  | some fn => if fn = "" then "receipt" ++ file_extension else fn
  | none => "receipt" ++ file_extension

/-- Where (if anywhere) an exception is raised during the upload.
`failSave` is caught by the inner `try` and re-raised as `HTTPException(500)`;
the two later points are unexpected exceptions reaching the generic
`except Exception` block. -/
inductive FailPoint where
  | noFail
  | failSave
  | failGetSize
  | failDbCreate
deriving DecidableEq

/-- The nondeterministic inputs of one upload: the failure scenario, the
`uuid4` filename stem, the `uuid4` receipt id and the file bytes. -/
structure UploadScenario where
  failPoint : FailPoint
  newName : String
  receiptId : String
  content : String
deriving DecidableEq

/-- Wire-schema receipt object returned by the receipt endpoints. -/
structure ReceiptResp where
  id : String
  url : String
  name : String
  tripId : Option ℕ
deriving DecidableEq

/-- Outcome of the upload handler: a response, a raised `HTTPException`, or an
uncaught Python exception (surfaced by the framework as a 500). -/
inductive UploadOutcome where
  | ok (resp : ReceiptResp)
  | httpError (code : ℕ)
  | pythonError (msg : String)
deriving DecidableEq

/-- `POST /api/receipts/upload`, acting on the database state and on the set
of files in the uploads directory.

Faithful to the source, including its defect: the generic
`except Exception` block first calls `traceback.print_exc()`, but `main.py`
never imports `traceback`, so that call raises `NameError` and the cleanup
code below it (`os.remove(file_path)`) is never reached — an unexpected
failure after the file was written leaves the file in place and surfaces as
an uncaught `NameError` instead of the handler's own `HTTPException(500)`. -/
def upload_receipt (s : DBState) (fs : List String) (f : UploadFile) (sc : UploadScenario) :
    UploadOutcome × DBState × List String :=
  let v := validate_upload f
  if v.1 = false then (UploadOutcome.httpError 400, s, fs)
  else
    let file_extension := v.2.getD ".jpg"
    let unique_filename := sc.newName ++ file_extension
    let file_path := "uploads/receipts/" ++ unique_filename
    match sc.failPoint with
    | FailPoint.failSave => (UploadOutcome.httpError 500, s, file_path :: fs)
    | FailPoint.failGetSize => (UploadOutcome.pythonError "NameError", s, file_path :: fs)
    | FailPoint.failDbCreate => (UploadOutcome.pythonError "NameError", s, file_path :: fs)
    | FailPoint.noFail =>
      let fs' := file_path :: fs
      let mt := resolve_mime f.content_type file_extension
      let rc : ReceiptRow :=
        { id := sc.receiptId, url := "/uploads/receipts/" ++ unique_filename,
          name := nameOf f.filename file_extension,
          trip_id := none, file_size := sc.content.length, mime_type := mt }
      let s' := { s with receipts := s.receipts ++ [rc] }
      match s'.receipts.find? (fun x => decide (x.id = sc.receiptId)) with
      | some cr =>
        (UploadOutcome.ok { id := cr.id, url := cr.url, name := cr.name, tripId := cr.trip_id },
         s', fs')
      | none => (UploadOutcome.pythonError "TypeError", s', fs')

/-! ### Linked financial accounts (database.py plaid operations) -/

/-- A row of the `plaid_accounts` table (`id`/`updated_at` omitted: no claim
touches them; `created_at` is kept for the newest-first ordering). -/
structure PlaidRow where
  user_id : String
  access_token : String
  item_id : String
  institution_id : Option String
  institution_name : Option String
  account_id : String
  account_name : Option String
  account_type : Option String
  account_subtype : Option String
  mask : Option String
  is_active : Bool
  created_at : ℕ
deriving DecidableEq

/-- The `data` dict passed to `create_plaid_account`. -/
structure PlaidData where
  access_token : String
  item_id : String
  institution_id : Option String
  institution_name : Option String
  account_id : String
  account_name : Option String
  account_type : Option String
  account_subtype : Option String
  mask : Option String
deriving DecidableEq

/-- The `WHERE user_id = ... AND item_id = ... AND account_id = ...` triple
filter. -/
def tripleMatch (r : PlaidRow) (uid item acct : String) : Bool :=
  decide (r.user_id = uid ∧ r.item_id = item ∧ r.account_id = acct)

/-- The `UPDATE ... SET` of `create_plaid_account`: overwrite credential and
metadata, set `is_active = TRUE` (`created_at` is not touched). -/
def overwriteRow (r : PlaidRow) (d : PlaidData) : PlaidRow :=
  { r with
    access_token := d.access_token, institution_id := d.institution_id,
    institution_name := d.institution_name, account_name := d.account_name,
    account_type := d.account_type, account_subtype := d.account_subtype,
    mask := d.mask, is_active := true }

/-- The freshly inserted row (`is_active` defaults to true, `created_at` to
the current time). -/
def newPlaidRow (uid : String) (d : PlaidData) (now : ℕ) : PlaidRow :=
  { user_id := uid, access_token := d.access_token, item_id := d.item_id,
    institution_id := d.institution_id, institution_name := d.institution_name,
    account_id := d.account_id, account_name := d.account_name,
    account_type := d.account_type, account_subtype := d.account_subtype,
    mask := d.mask, is_active := true, created_at := now }

/-- `DatabaseManager.create_plaid_account`: upsert keyed on the triple
(user_id, item_id, account_id) — update every matching row (active or
inactive) if any exists, otherwise insert one new row. -/
def create_plaid_account (rows : List PlaidRow) (uid : String) (d : PlaidData) (now : ℕ) :
    List PlaidRow :=
  if rows.any (fun r => tripleMatch r uid d.item_id d.account_id) then
    rows.map (fun r =>
      if tripleMatch r uid d.item_id d.account_id then overwriteRow r d else r)
  else rows ++ [newPlaidRow uid d now]

/-- Newest-first ordering on `created_at` (the `ORDER BY created_at DESC`). -/
def newerFirst (a b : PlaidRow) : Prop := b.created_at ≤ a.created_at

instance : DecidableRel newerFirst := fun a b => Nat.decLe b.created_at a.created_at

instance : IsTotal PlaidRow newerFirst := ⟨fun a b => Nat.le_total b.created_at a.created_at⟩

instance : IsTrans PlaidRow newerFirst := ⟨fun _ _ _ hab hbc => Nat.le_trans hbc hab⟩

/-- `DatabaseManager.get_user_plaid_accounts` (no item filter): active rows of
the user, newest first. -/
def get_user_plaid_accounts (rows : List PlaidRow) (uid : String) : List PlaidRow :=
  List.insertionSort newerFirst
    (rows.filter (fun r => decide (r.user_id = uid) && r.is_active))

/-- `DatabaseManager.get_plaid_account_by_item_id`: some active row of the
user with the item id (`LIMIT 1`). -/
def get_plaid_account_by_item_id (rows : List PlaidRow) (uid item : String) : Option PlaidRow :=
  rows.find? (fun r => decide (r.user_id = uid) && decide (r.item_id = item) && r.is_active)

/-- `DatabaseManager.deactivate_plaid_account`: flip `is_active` off on every
active row of the user with the item id, then report success by re-querying
for the absence of an active row. -/
def deactivate_plaid_account (rows : List PlaidRow) (uid item : String) :
    Bool × List PlaidRow :=
  let rows' := rows.map (fun r =>
    if r.user_id = uid ∧ r.item_id = item ∧ r.is_active then { r with is_active := false }
    else r)
  ((get_plaid_account_by_item_id rows' uid item).isNone, rows')

/-! ### Locations (database.py / main.py) -/

/-- Newest-first ordering on location timestamps (`ORDER BY timestamp DESC`). -/
def locNewerFirst (a b : LocationRow) : Prop := b.timestamp ≤ a.timestamp

instance : DecidableRel locNewerFirst := fun a b => Int.decLe b.timestamp a.timestamp

instance : IsTotal LocationRow locNewerFirst := ⟨fun a b => Int.le_total b.timestamp a.timestamp⟩

instance : IsTrans LocationRow locNewerFirst := ⟨fun _ _ _ hab hbc => Int.le_trans hbc hab⟩

/-- `DatabaseManager.get_recent_locations`. -/
def get_recent_locations (s : DBState) (limit : ℕ) : List LocationRow :=
  (List.insertionSort locNewerFirst s.locations).take limit

/-- Wire-schema location object (only latitude, longitude, timestamp). -/
structure LocationResp where
  latitude : ℚ
  longitude : ℚ
  timestamp : ℤ
deriving DecidableEq

/-- The per-record reshaping done by `GET /api/locations`. -/
def locToResp (l : LocationRow) : LocationResp :=
  { latitude := l.latitude, longitude := l.longitude, timestamp := l.timestamp }

/-- `GET /api/locations`: the 10 most recent samples, projected. -/
def get_locations_endpoint (s : DBState) : List LocationResp :=
  (get_recent_locations s 10).map locToResp

/-- `POST /api/locations` (`add_location`): append one sample (the optional
columns are not part of the request model and stay NULL). -/
def add_location (s : DBState) (lat lon : ℚ) (ts : ℤ) : LocationResp × DBState :=
  let row : LocationRow :=
    { id := s.next_location_id, latitude := lat, longitude := lon, timestamp := ts,
      accuracy := none, altitude := none, speed := none }
  ({ latitude := lat, longitude := lon, timestamp := ts },
   { s with locations := s.locations ++ [row], next_location_id := s.next_location_id + 1 })

/-! ### Derived notions used in the statements -/

/-- Agreement on every trip column other than the allow-listed `type` and
`notes` (claim C4's frame). -/
def sameImmutable (a b : TripRow) : Prop :=
  a.id = b.id ∧ a.date = b.date ∧ a.start_time = b.start_time ∧ a.end_time = b.end_time ∧
  a.start_location = b.start_location ∧ a.end_location = b.end_location ∧
  a.distance = b.distance ∧ a.potential = b.potential

/-- Number of rows matching the (user_id, item_id, account_id) triple. -/
def countTriple (rows : List PlaidRow) (uid item acct : String) : ℕ :=
  rows.countP (fun r => tripleMatch r uid item acct)

/-! ### Concrete data used by the witnesses -/

def emptyState : DBState :=
  { trips := [], trip_routes := [], receipts := [], locations := [],
    trip_stats := none, next_trip_id := 1, next_location_id := 1 }

def tdW : TripCreate :=
  { date := "WED 27", startTime := "3:20 PM", endTime := "4:05 PM",
    startLocation := "Home", endLocation := "Work", distance := 0, potential := 0,
    type := TripType.business, notes := "" }

def rowW : TripRow :=
  { id := 1, date := "WED 27", start_time := "3:20 PM", end_time := "4:05 PM",
    start_location := "Home", end_location := "Work", distance := 0, potential := 0,
    type := "business", notes := "" }

def respW : TripResp :=
  { id := 1, date := "WED 27", startTime := "3:20 PM", endTime := "4:05 PM",
    startLocation := "Home", endLocation := "Work", distance := 0, potential := 0,
    type := "business", notes := "" }

def statsW : StatsRow :=
  { total_drives := 1, total_miles := 0, total_logged := 0,
    business_miles := 0, personal_miles := 0 }

def statsZero : StatsRow :=
  { total_drives := 0, total_miles := 0, total_logged := 0,
    business_miles := 0, personal_miles := 0 }

def stateW : DBState :=
  { trips := [rowW], trip_routes := [], receipts := [], locations := [],
    trip_stats := some statsW, next_trip_id := 2, next_location_id := 1 }

def rowWP : TripRow := { rowW with type := "personal" }

def respWP : TripResp := { respW with type := "personal" }

def stateWP : DBState := { stateW with trips := [rowWP] }

def stateWD : DBState :=
  { trips := [], trip_routes := [], receipts := [], locations := [],
    trip_stats := some statsZero, next_trip_id := 2, next_location_id := 1 }

/-- A state with one trip, two route points (one owned by the trip) and two
receipts (one tagged to the trip), for the delete-cascade witness. -/
def stateCas : DBState :=
  { trips := [rowW],
    trip_routes := [{ trip_id := 1, latitude := 0, longitude := 0, sequence_order := 0 },
                    { trip_id := 7, latitude := 0, longitude := 0, sequence_order := 0 }],
    receipts := [{ id := "r1", url := "/uploads/receipts/a.jpg", name := "a.jpg",
                   trip_id := some 1, file_size := 5, mime_type := "image/jpeg" },
                 { id := "r2", url := "/uploads/receipts/b.jpg", name := "b.jpg",
                   trip_id := none, file_size := 5, mime_type := "image/jpeg" }],
    locations := [], trip_stats := none, next_trip_id := 2, next_location_id := 1 }

def fileTxt : UploadFile := { filename := some "note.txt", content_type := some "text/plain" }

def fileJpg : UploadFile := { filename := some "photo.jpg", content_type := none }

def scW : UploadScenario :=
  { failPoint := FailPoint.noFail, newName := "f00", receiptId := "rid1", content := "bytes" }

def scFail : UploadScenario :=
  { failPoint := FailPoint.failDbCreate, newName := "f00", receiptId := "rid1",
    content := "bytes" }

def dW : PlaidData :=
  { access_token := "tok-new", item_id := "item1", institution_id := some "ins_1",
    institution_name := some "Bank", account_id := "acct1", account_name := some "Checking",
    account_type := some "depository", account_subtype := some "checking",
    mask := some "1234" }

def rowP : PlaidRow :=
  { user_id := "u1", access_token := "tok-old", item_id := "item1", institution_id := none,
    institution_name := none, account_id := "acct1", account_name := none,
    account_type := none, account_subtype := none, mask := none, is_active := false,
    created_at := 5 }

def rowPActive : PlaidRow := { rowP with is_active := true, access_token := "tok-a" }

def locState : DBState :=
  { trips := [], trip_routes := [], receipts := [],
    locations := [{ id := 1, latitude := 1, longitude := 2, timestamp := 50,
                    accuracy := none, altitude := none, speed := none },
                  { id := 2, latitude := 3, longitude := 4, timestamp := 90,
                    accuracy := none, altitude := none, speed := none }],
    trip_stats := none, next_trip_id := 1, next_location_id := 3 }

/-! ### Helper lemmas: rounding -/

theorem pyRoundInt_intCast (k : ℤ) : pyRoundInt (k : ℚ) = k := by
  unfold pyRoundInt
  rw [Int.floor_intCast]
  norm_num

theorem pyRound_eq_self {x : ℚ} {n : ℕ} {k : ℤ} (h : x * 10 ^ n = (k : ℚ)) :
    pyRound x n = x := by
  unfold pyRound
  rw [h, pyRoundInt_intCast, div_eq_iff (ne_of_gt (by positivity : (0:ℚ) < 10 ^ n))]
  exact h.symm

theorem pyRound_mul_pow (x : ℚ) (n : ℕ) :
    pyRound x n * 10 ^ n = ((pyRoundInt (x * 10 ^ n) : ℤ) : ℚ) := by
  unfold pyRound
  rw [div_mul_cancel₀]
  exact ne_of_gt (by positivity : (0:ℚ) < 10 ^ n)

theorem format_distance_idem (d : ℚ) :
    format_distance (format_distance d) = format_distance d := by
  unfold format_distance
  by_cases h : d.den = 1
  · simp [h]
  · simp only [h, if_false]
    by_cases h2 : (pyRound d 1).den = 1
    · simp [h2]
    · simp only [h2, if_false]
      exact pyRound_eq_self (pyRound_mul_pow d 1)

theorem format_potential_idem (p : ℚ) :
    format_potential (format_potential p) = format_potential p := by
  unfold format_potential
  exact pyRound_eq_self (pyRound_mul_pow p 2)

theorem format_distance_zero : format_distance 0 = 0 := by
  unfold format_distance
  norm_num

theorem format_potential_zero : format_potential 0 = 0 := by
  unfold format_potential
  exact pyRound_eq_self (by norm_num : (0:ℚ) * 10 ^ 2 = ((0:ℤ) : ℚ))

/-! ### Helper lemmas: lists -/

theorem find?_append_left_none {α : Type} (p : α → Bool) (l₁ l₂ : List α)
    (h : ∀ x ∈ l₁, p x = false) :
    List.find? p (l₁ ++ l₂) = List.find? p l₂ := by
  induction l₁ with
  | nil => rfl
  | cons a l ih =>
    rw [List.cons_append, List.find?_cons, h a (List.mem_cons_self a l)]
    exact ih (fun x hx => h x (List.mem_cons_of_mem a hx))

theorem find?_map_invariant {α : Type} (f : α → α) (p : α → Bool)
    (h : ∀ a, p (f a) = p a) (l : List α) :
    List.find? p (l.map f) = (List.find? p l).map f := by
  induction l with
  | nil => rfl
  | cons a l ih =>
    rw [List.map_cons, List.find?_cons, List.find?_cons, h a]
    cases hpa : p a
    · exact ih
    · rfl

theorem countP_map_invariant {α : Type} (f : α → α) (p : α → Bool)
    (h : ∀ a, p (f a) = p a) (l : List α) :
    (l.map f).countP p = l.countP p := by
  induction l with
  | nil => rfl
  | cons a l ih => simp [List.countP_cons, h a, ih]

/-! ### Helper lemmas: trip operations -/

theorem sameImmutable_refl (a : TripRow) : sameImmutable a a :=
  ⟨rfl, rfl, rfl, rfl, rfl, rfl, rfl, rfl⟩

theorem sameImmutable_trans {a b c : TripRow}
    (h : sameImmutable a b) (g : sameImmutable b c) : sameImmutable a c :=
  ⟨h.1.trans g.1, h.2.1.trans g.2.1, h.2.2.1.trans g.2.2.1, h.2.2.2.1.trans g.2.2.2.1,
   h.2.2.2.2.1.trans g.2.2.2.2.1, h.2.2.2.2.2.1.trans g.2.2.2.2.2.1,
   h.2.2.2.2.2.2.1.trans g.2.2.2.2.2.2.1, h.2.2.2.2.2.2.2.trans g.2.2.2.2.2.2.2⟩

theorem applyKw_frame (t : TripRow) (kv : String × String) :
    sameImmutable (applyKw t kv) t := by
  unfold applyKw sameImmutable
  by_cases h1 : kv.1 = "type"
  · simp [h1]
  · by_cases h2 : kv.1 = "notes" <;> simp [h1, h2]

theorem applyKwList_frame (kvs : List (String × String)) (t : TripRow) :
    sameImmutable (applyKwList t kvs) t := by
  induction kvs generalizing t with
  | nil => exact sameImmutable_refl t
  | cons kv kvs ih =>
    unfold applyKwList
    rw [List.foldl_cons]
    exact sameImmutable_trans (ih (applyKw t kv)) (applyKw_frame t kv)

theorem update_trip_fst {s : DBState} {trip_id : ℕ} {t : TripRow}
    (kwargs : List (String × String)) (h : get_trip_by_id s trip_id = some t) :
    (update_trip s trip_id kwargs).1 =
      some (applyKwList t
        (kwargs.filter (fun kv => decide (kv.1 = "type" ∨ kv.1 = "notes")))) := by
  unfold update_trip
  by_cases hA : (kwargs.filter (fun kv => decide (kv.1 = "type" ∨ kv.1 = "notes"))).isEmpty
  · rw [List.isEmpty_iff] at hA
    rw [hA]
    simp [h, applyKwList]
  · simp only [hA, if_false, Bool.false_eq_true]
    have hid : t.id = trip_id := by
      have := List.find?_some h
      simpa using this
    have hmap := find?_map_invariant
      (fun t' => if t'.id = trip_id
        then applyKwList t' (kwargs.filter (fun kv => decide (kv.1 = "type" ∨ kv.1 = "notes")))
        else t')
      (fun t' => decide (t'.id = trip_id)) ?_ s.trips
    · unfold get_trip_by_id at h ⊢
      simp only [hmap, h, Option.map_some']
      rw [if_pos hid]
    · intro a
      by_cases ha : a.id = trip_id
      · simp [ha, (applyKwList_frame _ a).1]
      · simp [ha]

theorem get_inserted (s : DBState) (R : TripRow)
    (hWF : ∀ t ∈ s.trips, t.id < s.next_trip_id) (hR : R.id = s.next_trip_id)
    (s' : DBState) (hs' : s'.trips = s.trips ++ [R]) :
    get_trip_by_id s' R.id = some R := by
  unfold get_trip_by_id
  rw [hs', find?_append_left_none]
  · simp [List.find?_cons]
  · intro x hx
    have := hWF x hx
    rw [hR]
    simp only [decide_eq_false_iff_not]
    omega

theorem create_trip_eq (s : DBState) (d : TripData)
    (hWF : ∀ t ∈ s.trips, t.id < s.next_trip_id) :
    create_trip s d =
      (some (rowOf s d),
       { s with trips := s.trips ++ [rowOf s d], next_trip_id := s.next_trip_id + 1 }) := by
  unfold create_trip
  refine Prod.ext ?_ rfl
  exact get_inserted s (rowOf s d) hWF rfl _ rfl

theorem create_trip_endpoint_spec (s : DBState) (td : TripCreate)
    (hWF : ∀ t ∈ s.trips, t.id < s.next_trip_id) :
    create_trip_endpoint s td =
      some (tripToResp (rowOf s (tripDataOf td)),
        (update_trip_stats
          { s with trips := s.trips ++ [rowOf s (tripDataOf td)],
                   next_trip_id := s.next_trip_id + 1 }).2) := by
  simp only [create_trip_endpoint, create_trip_eq s (tripDataOf td) hWF, Option.map_some']

theorem statsConsistent_update_stats (s : DBState) :
    statsConsistent (update_trip_stats s).2 :=
  ⟨rfl, rfl⟩

/-! ### Concrete endpoint evaluations used by the witnesses -/

theorem createW_eq : create_trip_endpoint emptyState tdW = some (respW, stateW) := by
  rw [create_trip_endpoint_spec emptyState tdW (by intro t ht; simp [emptyState] at ht)]
  simp [emptyState, tdW, respW, stateW, rowW, statsW, rowOf, tripDataOf, tripToResp,
    update_trip_stats, calculate_trip_stats, computeAggregate, TripType.value,
    format_distance_zero, format_potential_zero]

theorem updateW_eq :
    update_trip_endpoint stateW 1 { type := some TripType.personal, notes := none } =
      Except.ok (respWP, stateWP) := by
  have hget : get_trip_by_id stateW 1 = some rowW := by
    simp [get_trip_by_id, stateW, rowW, List.find?_cons]
  have hfst := update_trip_fst
    (updateKwargs { type := some TripType.personal, notes := none }) hget
  simp only [update_trip_endpoint, hfst]
  simp [update_trip, updateKwargs, TripType.value, applyKwList, applyKw, stateW, rowW,
    get_trip_by_id, List.find?_cons, update_trip_stats, calculate_trip_stats,
    computeAggregate, tripToResp, respWP, respW, stateWP, rowWP, statsW,
    format_distance_zero, format_potential_zero]

theorem deleteW_eq : delete_trip_endpoint stateW 1 = Except.ok stateWD := by
  simp [delete_trip_endpoint, delete_trip, stateW, rowW, stateWD, statsZero,
    update_trip_stats, calculate_trip_stats, computeAggregate]

/-! ### The claims -/

/-- Claim C1: after every successful trip create, update or delete handled by
the API, the cached stats row (id 1) equals the COUNT/SUM aggregate recomputed
from the live trips table (including the per-type split sums), and
`GET /api/trips/stats` reports exactly those values as integers. -/
theorem trip_mutations_keep_stats_consistent :
    (∀ (s : DBState) (td : TripCreate) (r : TripResp) (s' : DBState),
      create_trip_endpoint s td = some (r, s') → statsConsistent s') ∧
    (∀ (s : DBState) (trip_id : ℕ) (u : TripUpdate) (r : TripResp) (s' : DBState),
      update_trip_endpoint s trip_id u = Except.ok (r, s') → statsConsistent s') ∧
    (∀ (s : DBState) (trip_id : ℕ) (s' : DBState),
      delete_trip_endpoint s trip_id = Except.ok s' → statsConsistent s') := by
  refine ⟨?_, ?_, ?_⟩
  · intro s td r s' h
    simp only [create_trip_endpoint] at h
    rcases Option.map_eq_some'.mp h with ⟨t, _, hts⟩
    injection hts with h1 h2
    rw [← h2]
    exact statsConsistent_update_stats _
  · intro s trip_id u r s' h
    simp only [update_trip_endpoint] at h
    cases hu : (update_trip s trip_id (updateKwargs u)).1 with
    | none => rw [hu] at h; exact absurd h (by simp)
    | some t =>
      rw [hu] at h
      injection h with h1
      injection h1 with h1a h1b
      rw [← h1b]
      exact statsConsistent_update_stats _
  · intro s trip_id s' h
    simp only [delete_trip_endpoint] at h
    by_cases hd : (delete_trip s trip_id).1 = true
    · rw [if_pos hd] at h
      injection h with h1
      rw [← h1]
      exact statsConsistent_update_stats _
    · rw [if_neg hd] at h
      exact absurd h (by simp)

theorem trip_mutations_keep_stats_consistent_witness :
    statsConsistent stateW ∧ statsConsistent stateWP ∧ statsConsistent stateWD :=
  ⟨trip_mutations_keep_stats_consistent.1 emptyState tdW respW stateW createW_eq,
   trip_mutations_keep_stats_consistent.2.1 stateW 1
     { type := some TripType.personal, notes := none } respWP stateWP updateW_eq,
   trip_mutations_keep_stats_consistent.2.2 stateW 1 stateWD deleteW_eq⟩

/-- Claim C9: with no cache row (cold read), `get_trip_stats` recomputes the
COUNT/SUM aggregate from the trips table, upserts it as the id-1 cache row and
returns it; with a cache row present it returns the row as-is, without
recomputing. -/
theorem trip_stats_read_paths :
    (∀ s : DBState, s.trip_stats = none →
      get_trip_stats s =
        (computeAggregate s.trips,
         { s with trip_stats := some (computeAggregate s.trips) })) ∧
    (∀ (s : DBState) (r : StatsRow), s.trip_stats = some r → get_trip_stats s = (r, s)) := by
  constructor
  · intro s h
    unfold get_trip_stats
    rw [h]
    rfl
  · intro s r h
    unfold get_trip_stats
    rw [h]

theorem trip_stats_read_paths_witness :
    get_trip_stats stateCas =
      (computeAggregate stateCas.trips,
       { stateCas with trip_stats := some (computeAggregate stateCas.trips) }) ∧
    get_trip_stats stateW = (statsW, stateW) :=
  ⟨trip_stats_read_paths.1 stateCas rfl, trip_stats_read_paths.2 stateW statsW rfl⟩

/-- Claim C4: for an existing trip, a trip update may change only `type` and
`notes`: every other stored column keeps its value; unknown or disallowed keys
in the update set are silently ignored (the update still succeeds); an update
set with no allowed key leaves the row and the state entirely unchanged and
returns the current row; and the PUT endpoint succeeds for every optional-field
body. -/
theorem trip_update_allowlist :
    ∀ (s : DBState) (trip_id : ℕ) (kwargs : List (String × String)) (t : TripRow),
    get_trip_by_id s trip_id = some t →
    (∃ t', (update_trip s trip_id kwargs).1 = some t' ∧ sameImmutable t' t) ∧
    ((∀ kv ∈ kwargs, ¬ kv.1 = "type" ∧ ¬ kv.1 = "notes") →
      update_trip s trip_id kwargs = (some t, s)) ∧
    (∀ u : TripUpdate, ∃ (r : TripResp) (s' : DBState),
      update_trip_endpoint s trip_id u = Except.ok (r, s')) := by
  intro s trip_id kwargs t h
  refine ⟨⟨_, update_trip_fst kwargs h, applyKwList_frame _ t⟩, ?_, ?_⟩
  · intro hnone
    have hfil : kwargs.filter (fun kv => decide (kv.1 = "type" ∨ kv.1 = "notes")) = [] := by
      rw [List.filter_eq_nil_iff]
      intro kv hkv
      have := hnone kv hkv
      simp [this.1, this.2]
    unfold update_trip
    rw [hfil]
    simp [h]
  · intro u
    refine ⟨tripToResp (applyKwList t
        ((updateKwargs u).filter (fun kv => decide (kv.1 = "type" ∨ kv.1 = "notes")))),
      (update_trip_stats (update_trip s trip_id (updateKwargs u)).2).2, ?_⟩
    simp only [update_trip_endpoint, update_trip_fst (updateKwargs u) h]

theorem trip_update_allowlist_witness :
    get_trip_by_id stateW 1 = some rowW ∧
    ((∃ t', (update_trip stateW 1 [("distance", "99"), ("foo", "x")]).1 = some t' ∧
        sameImmutable t' rowW) ∧
     ((∀ kv ∈ [("distance", "99"), ("foo", "x")], ¬ kv.1 = "type" ∧ ¬ kv.1 = "notes") →
        update_trip stateW 1 [("distance", "99"), ("foo", "x")] = (some rowW, stateW)) ∧
     (∀ u : TripUpdate, ∃ (r : TripResp) (s' : DBState),
        update_trip_endpoint stateW 1 u = Except.ok (r, s'))) :=
  have hget : get_trip_by_id stateW 1 = some rowW := by
    simp [get_trip_by_id, stateW, List.find?_cons, rowW]
  ⟨hget, trip_update_allowlist stateW 1 [("distance", "99"), ("foo", "x")] rowW hget⟩

/-- Claim C5: creating a trip and then fetching it by the assigned id returns
exactly the creation response (all wire fields equal), and the
`format_distance` / `format_potential` formatting applied on create is
idempotent. -/
theorem trip_create_fetch_roundtrip :
    ∀ (s : DBState) (td : TripCreate) (r : TripResp) (s' : DBState),
    (∀ t ∈ s.trips, t.id < s.next_trip_id) →
    create_trip_endpoint s td = some (r, s') →
    get_trip_endpoint s' r.id = Except.ok r ∧
    (∀ q : ℚ, format_distance (format_distance q) = format_distance q) ∧
    (∀ q : ℚ, format_potential (format_potential q) = format_potential q) := by
  intro s td r s' hWF h
  refine ⟨?_, fun q => format_distance_idem q, fun q => format_potential_idem q⟩
  rw [create_trip_endpoint_spec s td hWF] at h
  injection h with h1
  injection h1 with h1a h1b
  rw [← h1a, ← h1b]
  have hfind :
      get_trip_by_id
        (update_trip_stats
          { s with trips := s.trips ++ [rowOf s (tripDataOf td)],
                   next_trip_id := s.next_trip_id + 1 }).2
        (rowOf s (tripDataOf td)).id = some (rowOf s (tripDataOf td)) :=
    get_inserted s (rowOf s (tripDataOf td)) hWF rfl _ rfl
  simp only [get_trip_endpoint, tripToResp, hfind]

theorem trip_create_fetch_roundtrip_witness :
    get_trip_endpoint stateW respW.id = Except.ok respW ∧
    format_distance (format_distance (5/2)) = format_distance (5/2) ∧
    format_potential (format_potential (134/100)) = format_potential (134/100) :=
  have hrt := trip_create_fetch_roundtrip emptyState tdW respW stateW
    (by intro t ht; simp [emptyState] at ht) createW_eq
  ⟨hrt.1, hrt.2.1 (5/2), hrt.2.2 (134/100)⟩

/-- Claim C6: deleting an existing trip removes the trip row, cascade-deletes
exactly its `trip_routes` rows, and keeps every receipt (same count, same
columns) while clearing the trip reference of those that were tagged to the
trip; deleting a missing trip id returns 404. -/
theorem trip_delete_cascades :
    ∀ (s : DBState) (trip_id : ℕ),
    ((∃ t ∈ s.trips, t.id = trip_id) →
      ∃ s', delete_trip_endpoint s trip_id = Except.ok s' ∧
        (∀ t ∈ s'.trips, ¬ t.id = trip_id) ∧
        (∀ rp : RouteRow, rp ∈ s'.trip_routes ↔ (rp ∈ s.trip_routes ∧ ¬ rp.trip_id = trip_id)) ∧
        s'.receipts.length = s.receipts.length ∧
        (∀ rc ∈ s.receipts, rc.trip_id = some trip_id →
          ∃ rc' ∈ s'.receipts, rc'.id = rc.id ∧ rc'.url = rc.url ∧ rc'.name = rc.name ∧
            rc'.file_size = rc.file_size ∧ rc'.mime_type = rc.mime_type ∧
            rc'.trip_id = none)) ∧
    ((∀ t ∈ s.trips, ¬ t.id = trip_id) → delete_trip_endpoint s trip_id = Except.error 404) := by
  intro s trip_id
  constructor
  · rintro ⟨t, ht, hid⟩
    have hpos : (delete_trip s trip_id).1 = true := by
      have hmem : t ∈ s.trips.filter (fun t => decide (t.id = trip_id)) :=
        List.mem_filter.mpr ⟨ht, by simp [hid]⟩
      simp only [delete_trip, decide_eq_true_eq]
      exact List.length_pos_of_mem hmem
    refine ⟨(update_trip_stats (delete_trip s trip_id).2).2, ?_, ?_, ?_, ?_, ?_⟩
    · simp [delete_trip_endpoint, hpos]
    · intro t' ht'
      have : t' ∈ (delete_trip s trip_id).2.trips := ht'
      simp only [delete_trip] at this
      rcases List.mem_filter.mp this with ⟨_, hb⟩
      simpa using hb
    · intro rp
      constructor
      · intro hrp
        have : rp ∈ (delete_trip s trip_id).2.trip_routes := hrp
        simp only [delete_trip] at this
        rcases List.mem_filter.mp this with ⟨hmem, hb⟩
        exact ⟨hmem, by simpa using hb⟩
      · rintro ⟨hmem, hne⟩
        show rp ∈ (delete_trip s trip_id).2.trip_routes
        simp only [delete_trip]
        exact List.mem_filter.mpr ⟨hmem, by simpa using hne⟩
    · show (delete_trip s trip_id).2.receipts.length = s.receipts.length
      simp [delete_trip]
    · intro rc hrc htag
      refine ⟨{ rc with trip_id := none }, ?_, rfl, rfl, rfl, rfl, rfl, rfl⟩
      show _ ∈ (delete_trip s trip_id).2.receipts
      simp only [delete_trip]
      have := List.mem_map_of_mem
        (fun rc => if rc.trip_id = some trip_id then { rc with trip_id := none } else rc) hrc
      simpa [htag] using this
  · intro hnone
    have h0 : s.trips.filter (fun t => decide (t.id = trip_id)) = [] := by
      rw [List.filter_eq_nil_iff]
      intro a ha
      simpa using hnone a ha
    simp [delete_trip_endpoint, delete_trip, h0]

theorem trip_delete_cascades_witness :
    (∃ s', delete_trip_endpoint stateCas 1 = Except.ok s' ∧
      (∀ t ∈ s'.trips, ¬ t.id = 1) ∧
      (∀ rp : RouteRow,
        rp ∈ s'.trip_routes ↔ (rp ∈ stateCas.trip_routes ∧ ¬ rp.trip_id = 1)) ∧
      s'.receipts.length = stateCas.receipts.length ∧
      (∀ rc ∈ stateCas.receipts, rc.trip_id = some 1 →
        ∃ rc' ∈ s'.receipts, rc'.id = rc.id ∧ rc'.url = rc.url ∧ rc'.name = rc.name ∧
          rc'.file_size = rc.file_size ∧ rc'.mime_type = rc.mime_type ∧
          rc'.trip_id = none)) ∧
    delete_trip_endpoint stateCas 99 = Except.error 404 :=
  ⟨(trip_delete_cascades stateCas 1).1 ⟨rowW, by simp [stateCas], rfl⟩,
   (trip_delete_cascades stateCas 99).2 (by
     intro t ht
     simp only [stateCas, List.mem_singleton] at ht
     subst ht
     simp [rowW])⟩

/-! ### Helper lemmas: upload validation -/

theorem validate_reject {f : UploadFile} {ct : String}
    (hext : extAllowed (extOf f.filename) = false)
    (hct : f.content_type = some ct) (hne : ct ≠ "")
    (hnotin : lowerStr ct ∉ allowed_mime_types) :
    validate_upload f = (false, extOf f.filename) := by
  have hcto : ct ≠ "application/octet-stream" := by
    intro he
    apply hnotin
    rw [he]
    decide
  simp [validate_upload, mimeAllowed, truthy, hext, hct, hne, hcto, hnotin]

theorem validate_accept_ext {f : UploadFile} {e : String}
    (he : extOf f.filename = some e) (helem : e ∈ allowed_extensions) :
    validate_upload f = (true, some e) := by
  unfold validate_upload
  rw [he]
  simp [extAllowed, helem]

theorem resolve_mime_generic {ct : Option String} (e : String)
    (h : ct = none ∨ ct = some "" ∨ ct = some "application/octet-stream") :
    resolve_mime ct e = (mime_map.lookup e).getD "image/jpeg" := by
  rcases h with h | h | h <;> simp [resolve_mime, truthy, h]

theorem upload_accept_eq (s : DBState) (fs : List String) (f : UploadFile)
    (sc : UploadScenario) (e : String)
    (he : extOf f.filename = some e) (helem : e ∈ allowed_extensions)
    (hctB : f.content_type = none ∨ f.content_type = some "" ∨
      f.content_type = some "application/octet-stream")
    (hfp : sc.failPoint = FailPoint.noFail)
    (hfresh : ∀ rc ∈ s.receipts, ¬ rc.id = sc.receiptId) :
    upload_receipt s fs f sc =
      (UploadOutcome.ok
        { id := sc.receiptId, url := "/uploads/receipts/" ++ (sc.newName ++ e),
          name := nameOf f.filename e, tripId := none },
       { s with receipts := s.receipts ++
          [{ id := sc.receiptId, url := "/uploads/receipts/" ++ (sc.newName ++ e),
             name := nameOf f.filename e, trip_id := none,
             file_size := sc.content.length,
             mime_type := (mime_map.lookup e).getD "image/jpeg" }] },
       ("uploads/receipts/" ++ (sc.newName ++ e)) :: fs) := by
  have hv := validate_accept_ext he helem
  have hmt := resolve_mime_generic e hctB
  have hfind : List.find? (fun x => decide (x.id = sc.receiptId))
      (s.receipts ++
        [{ id := sc.receiptId, url := "/uploads/receipts/" ++ (sc.newName ++ e),
           name := nameOf f.filename e, trip_id := none,
           file_size := sc.content.length,
           mime_type := (mime_map.lookup e).getD "image/jpeg" }]) =
      some { id := sc.receiptId, url := "/uploads/receipts/" ++ (sc.newName ++ e),
             name := nameOf f.filename e, trip_id := none,
             file_size := sc.content.length,
             mime_type := (mime_map.lookup e).getD "image/jpeg" } := by
    rw [find?_append_left_none]
    · simp [List.find?_cons]
    · intro x hx
      simpa using hfresh x hx
  simp [upload_receipt, hv, hfp, hmt, hfind]

/-- Claim C2: an upload whose filename extension fails the image allow-list
and whose declared (non-empty) content type is, case-insensitively, not in the
image MIME allow-list is rejected with a 400 and changes nothing; an upload
whose extension is allow-listed and whose declared content type is absent,
empty or the generic `application/octet-stream` succeeds, and the stored
receipt row's `mime_type` is resolved from the extension via `mime_map`
(defaulting to `image/jpeg`). -/
theorem upload_validation_and_mime :
    (∀ (s : DBState) (fs : List String) (f : UploadFile) (sc : UploadScenario) (ct : String),
      extAllowed (extOf f.filename) = false →
      f.content_type = some ct → ct ≠ "" → lowerStr ct ∉ allowed_mime_types →
      upload_receipt s fs f sc = (UploadOutcome.httpError 400, s, fs)) ∧
    (∀ (s : DBState) (fs : List String) (f : UploadFile) (sc : UploadScenario) (e : String),
      extOf f.filename = some e → e ∈ allowed_extensions →
      (f.content_type = none ∨ f.content_type = some "" ∨
        f.content_type = some "application/octet-stream") →
      sc.failPoint = FailPoint.noFail →
      (∀ rc ∈ s.receipts, ¬ rc.id = sc.receiptId) →
      ∃ rc : ReceiptRow,
        (upload_receipt s fs f sc).1 =
          UploadOutcome.ok { id := rc.id, url := rc.url, name := rc.name, tripId := rc.trip_id } ∧
        rc ∈ (upload_receipt s fs f sc).2.1.receipts ∧
        rc.mime_type = (mime_map.lookup e).getD "image/jpeg" ∧
        rc.trip_id = none) := by
  constructor
  · intro s fs f sc ct hext hct hne hnotin
    have hv := validate_reject hext hct hne hnotin
    simp [upload_receipt, hv]
  · intro s fs f sc e he helem hctB hfp hfresh
    have heq := upload_accept_eq s fs f sc e he helem hctB hfp hfresh
    refine ⟨{ id := sc.receiptId, url := "/uploads/receipts/" ++ (sc.newName ++ e),
              name := nameOf f.filename e, trip_id := none,
              file_size := sc.content.length,
              mime_type := (mime_map.lookup e).getD "image/jpeg" }, ?_, ?_, rfl, rfl⟩
    · rw [heq]
    · rw [heq]
      simp

theorem upload_validation_and_mime_witness :
    upload_receipt emptyState [] fileTxt scW = (UploadOutcome.httpError 400, emptyState, []) ∧
    (∃ rc : ReceiptRow,
      (upload_receipt emptyState [] fileJpg scW).1 =
        UploadOutcome.ok { id := rc.id, url := rc.url, name := rc.name, tripId := rc.trip_id } ∧
      rc ∈ (upload_receipt emptyState [] fileJpg scW).2.1.receipts ∧
      rc.mime_type = (mime_map.lookup ".jpg").getD "image/jpeg" ∧
      rc.trip_id = none) ∧
    (mime_map.lookup ".jpg").getD "image/jpeg" = "image/jpeg" :=
  ⟨upload_validation_and_mime.1 emptyState [] fileTxt scW "text/plain"
      (by decide) rfl (by decide) (by decide),
   upload_validation_and_mime.2 emptyState [] fileJpg scW ".jpg"
      (by decide) (by decide) (Or.inl rfl) rfl (by simp [emptyState]),
   by decide⟩

/-- Claim C3 (failing evaluation): a valid `.jpg` upload in which the database
insert raises after the file was written ends in an uncaught `NameError`
(`traceback` is never imported by main.py, so the `except Exception` block
dies on `traceback.print_exc()` before reaching its cleanup code), and the
partially written file `uploads/receipts/f00.jpg` is still present
afterwards — the spec's promised removal of the file before the 500 never
happens. -/
theorem upload_cleanup_never_runs :
    upload_receipt emptyState [] { filename := some "a.jpg", content_type := some "image/jpeg" }
        scFail =
      (UploadOutcome.pythonError "NameError", emptyState, ["uploads/receipts/f00.jpg"]) ∧
    "uploads/receipts/f00.jpg" ∈
      (upload_receipt emptyState []
        { filename := some "a.jpg", content_type := some "image/jpeg" } scFail).2.2 := by
  constructor
  · decide
  · decide

/-! ### Helper lemmas: linked accounts -/

theorem tripleMatch_overwrite (r : PlaidRow) (uid : String) (d : PlaidData) :
    tripleMatch (overwriteRow r d) uid d.item_id d.account_id =
      tripleMatch r uid d.item_id d.account_id := rfl

theorem tripleMatch_newPlaidRow (uid : String) (d : PlaidData) (now : ℕ) :
    tripleMatch (newPlaidRow uid d now) uid d.item_id d.account_id = true := by
  simp [tripleMatch, newPlaidRow]

theorem countTriple_upsert (rows : List PlaidRow) (uid : String) (d : PlaidData) (now : ℕ)
    (h : countTriple rows uid d.item_id d.account_id ≤ 1) :
    countTriple (create_plaid_account rows uid d now) uid d.item_id d.account_id = 1 := by
  unfold countTriple at h ⊢
  unfold create_plaid_account
  by_cases hany : rows.any (fun r => tripleMatch r uid d.item_id d.account_id) = true
  · rw [if_pos hany, countP_map_invariant]
    · have hpos : 0 < rows.countP (fun r => tripleMatch r uid d.item_id d.account_id) :=
        List.countP_pos_iff.mpr (List.any_eq_true.mp hany)
      omega
    · intro a
      by_cases ha : tripleMatch a uid d.item_id d.account_id = true
      · simp [ha, tripleMatch_overwrite]
      · simp [ha]
  · rw [if_neg hany, List.countP_append]
    have h0 : rows.countP (fun r => tripleMatch r uid d.item_id d.account_id) = 0 := by
      rw [List.countP_eq_zero]
      intro a ha hp
      exact hany (List.any_eq_true.mpr ⟨a, ha, hp⟩)
    simp [h0, List.countP_cons, tripleMatch_newPlaidRow]

theorem upsert_triple_active (rows : List PlaidRow) (uid : String) (d : PlaidData) (now : ℕ) :
    ∀ r ∈ create_plaid_account rows uid d now,
      tripleMatch r uid d.item_id d.account_id = true → r.is_active = true := by
  intro r hr htr
  unfold create_plaid_account at hr
  by_cases hany : rows.any (fun r => tripleMatch r uid d.item_id d.account_id) = true
  · rw [if_pos hany] at hr
    rcases List.mem_map.mp hr with ⟨a, ha, rfl⟩
    by_cases haT : tripleMatch a uid d.item_id d.account_id = true
    · simp [haT, overwriteRow]
    · rw [if_neg haT] at htr ⊢
      exact absurd htr haT
  · rw [if_neg hany] at hr
    rcases List.mem_append.mp hr with ha | ha
    · exact absurd (List.any_eq_true.mpr ⟨r, ha, htr⟩) hany
    · rw [List.mem_singleton] at ha
      subst ha
      rfl

/-- Claim C7: the linked-account upsert is idempotent on the triple
(user_id, item_id, account_id): with a matching row present (active or not) it
overwrites credential and metadata and reactivates, without inserting; with no
matching row it appends exactly one new row; hence two calls with the same
triple starting from a state with at most one matching row leave exactly one
matching row, and the active-accounts listing shows exactly one entry for the
triple. -/
theorem plaid_upsert_idempotent :
    ∀ (rows : List PlaidRow) (uid : String) (d : PlaidData) (now now' : ℕ),
    ((∃ r ∈ rows, tripleMatch r uid d.item_id d.account_id = true) →
      (create_plaid_account rows uid d now).length = rows.length ∧
      (∀ r ∈ create_plaid_account rows uid d now,
        tripleMatch r uid d.item_id d.account_id = true →
        r.access_token = d.access_token ∧ r.institution_id = d.institution_id ∧
        r.institution_name = d.institution_name ∧ r.account_name = d.account_name ∧
        r.account_type = d.account_type ∧ r.account_subtype = d.account_subtype ∧
        r.mask = d.mask ∧ r.is_active = true)) ∧
    ((∀ r ∈ rows, tripleMatch r uid d.item_id d.account_id = false) →
      create_plaid_account rows uid d now = rows ++ [newPlaidRow uid d now]) ∧
    (countTriple rows uid d.item_id d.account_id ≤ 1 →
      countTriple (create_plaid_account (create_plaid_account rows uid d now) uid d now')
        uid d.item_id d.account_id = 1 ∧
      (get_user_plaid_accounts
          (create_plaid_account (create_plaid_account rows uid d now) uid d now') uid).countP
        (fun r => decide (r.item_id = d.item_id ∧ r.account_id = d.account_id)) = 1) := by
  intro rows uid d now now'
  refine ⟨?_, ?_, ?_⟩
  · rintro ⟨r0, hr0, ht0⟩
    have hany : rows.any (fun r => tripleMatch r uid d.item_id d.account_id) = true :=
      List.any_eq_true.mpr ⟨r0, hr0, ht0⟩
    constructor
    · simp [create_plaid_account, hany]
    · intro r hr htr
      unfold create_plaid_account at hr
      rw [if_pos hany] at hr
      rcases List.mem_map.mp hr with ⟨a, ha, rfl⟩
      by_cases haT : tripleMatch a uid d.item_id d.account_id = true
      · simp [haT, overwriteRow]
      · rw [if_neg haT] at htr ⊢
        exact absurd htr haT
  · intro hnone
    have hany : rows.any (fun r => tripleMatch r uid d.item_id d.account_id) = false := by
      rw [List.any_eq_false]
      intro a ha
      simp [hnone a ha]
    simp [create_plaid_account, hany]
  · intro h
    have h1 := countTriple_upsert rows uid d now h
    have h2 := countTriple_upsert (create_plaid_account rows uid d now) uid d now' (by omega)
    refine ⟨h2, ?_⟩
    have hperm : (get_user_plaid_accounts
        (create_plaid_account (create_plaid_account rows uid d now) uid d now') uid).Perm
        ((create_plaid_account (create_plaid_account rows uid d now) uid d now').filter
          (fun r => decide (r.user_id = uid) && r.is_active)) :=
      List.perm_insertionSort _ _
    rw [hperm.countP_eq, List.countP_filter]
    rw [List.countP_congr ?_]
    · exact h2
    · intro a ha
      have hact := upsert_triple_active (create_plaid_account rows uid d now) uid d now' a ha
      constructor
      · intro hc
        rcases Bool.and_eq_true_iff.mp hc with ⟨hp, hq⟩
        rcases Bool.and_eq_true_iff.mp hq with ⟨hu, _⟩
        rcases decide_eq_true_eq.mp hp with ⟨hi, hacc⟩
        exact decide_eq_true_eq.mpr ⟨decide_eq_true_eq.mp hu, hi, hacc⟩
      · intro hc
        rcases decide_eq_true_eq.mp hc with ⟨hu, hi, hacc⟩
        have := hact hc
        simp [hu, hi, hacc, this]

theorem plaid_upsert_idempotent_witness :
    ((create_plaid_account [rowP] "u1" dW 9).length = 1 ∧
      (∀ r ∈ create_plaid_account [rowP] "u1" dW 9,
        tripleMatch r "u1" dW.item_id dW.account_id = true →
        r.access_token = dW.access_token ∧ r.institution_id = dW.institution_id ∧
        r.institution_name = dW.institution_name ∧ r.account_name = dW.account_name ∧
        r.account_type = dW.account_type ∧ r.account_subtype = dW.account_subtype ∧
        r.mask = dW.mask ∧ r.is_active = true)) ∧
    create_plaid_account [] "u1" dW 9 = [newPlaidRow "u1" dW 9] ∧
    (countTriple (create_plaid_account (create_plaid_account [] "u1" dW 9) "u1" dW 10)
        "u1" dW.item_id dW.account_id = 1 ∧
      (get_user_plaid_accounts
          (create_plaid_account (create_plaid_account [] "u1" dW 9) "u1" dW 10) "u1").countP
        (fun r => decide (r.item_id = dW.item_id ∧ r.account_id = dW.account_id)) = 1) :=
  have hp := plaid_upsert_idempotent [rowP] "u1" dW 9 9
  have hq := plaid_upsert_idempotent [] "u1" dW 9 10
  ⟨by
    have := hp.1 ⟨rowP, by simp, by decide⟩
    simpa using this,
   by
    have := hq.2.1 (by intro r hr; simp at hr)
    simpa using this,
   hq.2.2 (by decide)⟩

/-- Claim C8: deactivating a linked account only flips `is_active` off (the
rows persist with all other columns intact), after which no active row with
that user/item pair exists and the account is absent from the active-accounts
listing; the listing contains only active rows of the user, ordered
newest-first by `created_at`; and deactivation returns true exactly when no
active row with that item id remains for the user. -/
theorem plaid_deactivate_soft_delete :
    ∀ (rows : List PlaidRow) (uid item : String),
    ((deactivate_plaid_account rows uid item).2).length = rows.length ∧
    (∀ r' ∈ (deactivate_plaid_account rows uid item).2, ∃ r ∈ rows,
      r'.user_id = r.user_id ∧ r'.item_id = r.item_id ∧ r'.account_id = r.account_id ∧
      r'.access_token = r.access_token ∧ r'.institution_name = r.institution_name ∧
      r'.created_at = r.created_at) ∧
    (∀ r' ∈ (deactivate_plaid_account rows uid item).2,
      ¬(r'.user_id = uid ∧ r'.item_id = item ∧ r'.is_active = true)) ∧
    (∀ r ∈ get_user_plaid_accounts (deactivate_plaid_account rows uid item).2 uid,
      ¬ r.item_id = item) ∧
    (∀ r ∈ get_user_plaid_accounts rows uid, r.is_active = true ∧ r.user_id = uid) ∧
    List.Sorted newerFirst (get_user_plaid_accounts rows uid) ∧
    ((deactivate_plaid_account rows uid item).1 = true ↔
      ∀ r' ∈ (deactivate_plaid_account rows uid item).2,
        ¬(r'.user_id = uid ∧ r'.item_id = item ∧ r'.is_active = true)) := by
  intro rows uid item
  have hflip : ∀ r' ∈ (deactivate_plaid_account rows uid item).2,
      ¬(r'.user_id = uid ∧ r'.item_id = item ∧ r'.is_active = true) := by
    intro r' hr'
    unfold deactivate_plaid_account at hr'
    rcases List.mem_map.mp hr' with ⟨a, _, rfl⟩
    by_cases hc : a.user_id = uid ∧ a.item_id = item ∧ a.is_active
    · rw [if_pos hc]
      rintro ⟨_, _, hact⟩
      exact absurd hact (by simp)
    · rw [if_neg hc]
      rintro ⟨h1, h2, h3⟩
      exact hc ⟨h1, h2, by simp [h3]⟩
  refine ⟨?_, ?_, hflip, ?_, ?_, ?_, ?_⟩
  · simp [deactivate_plaid_account]
  · intro r' hr'
    unfold deactivate_plaid_account at hr'
    rcases List.mem_map.mp hr' with ⟨a, ha, rfl⟩
    refine ⟨a, ha, ?_⟩
    by_cases hc : a.user_id = uid ∧ a.item_id = item ∧ a.is_active <;> simp [hc]
  · intro r hr
    unfold get_user_plaid_accounts at hr
    rw [List.mem_insertionSort] at hr
    rcases List.mem_filter.mp hr with ⟨hmem, hb⟩
    rcases Bool.and_eq_true_iff.mp hb with ⟨hu, hact⟩
    intro hitem
    exact hflip r hmem ⟨decide_eq_true_eq.mp hu, hitem, hact⟩
  · intro r hr
    unfold get_user_plaid_accounts at hr
    rw [List.mem_insertionSort] at hr
    rcases List.mem_filter.mp hr with ⟨_, hb⟩
    rcases Bool.and_eq_true_iff.mp hb with ⟨hu, hact⟩
    exact ⟨hact, decide_eq_true_eq.mp hu⟩
  · exact List.sorted_insertionSort newerFirst _
  · constructor
    · intro _
      exact hflip
    · intro _
      unfold deactivate_plaid_account
      rw [Option.isNone_iff_eq_none]
      unfold get_plaid_account_by_item_id
      rw [List.find?_eq_none]
      intro a ha hb
      rcases Bool.and_eq_true_iff.mp hb with ⟨hui, hact⟩
      rcases Bool.and_eq_true_iff.mp hui with ⟨hu, hi⟩
      exact hflip a ha ⟨decide_eq_true_eq.mp hu, decide_eq_true_eq.mp hi, hact⟩

theorem plaid_deactivate_soft_delete_witness :
    ((deactivate_plaid_account [rowPActive] "u1" "item1").2).length = 1 ∧
    (deactivate_plaid_account [rowPActive] "u1" "item1").1 = true ∧
    (∀ r ∈ get_user_plaid_accounts
        (deactivate_plaid_account [rowPActive] "u1" "item1").2 "u1",
      ¬ r.item_id = "item1") :=
  have h := plaid_deactivate_soft_delete [rowPActive] "u1" "item1"
  ⟨h.1, h.2.2.2.2.2.2.mpr h.2.2.1, h.2.2.2.1⟩

/-- Claim C10: `GET /api/locations` returns at most 10 records — a projection
(latitude, longitude, timestamp only) of stored samples with the greatest
timestamps, in descending timestamp order — while `POST /api/locations`
appends samples without bound. -/
theorem recent_locations_cap_order_projection :
    ∀ s : DBState,
    (get_locations_endpoint s).length ≤ 10 ∧
    List.Pairwise (fun a b : LocationResp => b.timestamp ≤ a.timestamp)
      (get_locations_endpoint s) ∧
    (∃ chosen rest : List LocationRow,
      s.locations.Perm (chosen ++ rest) ∧
      get_locations_endpoint s = chosen.map locToResp ∧
      ∀ x ∈ chosen, ∀ y ∈ rest, y.timestamp ≤ x.timestamp) ∧
    (∀ (lat lon : ℚ) (ts : ℤ),
      ((add_location s lat lon ts).2).locations.length = s.locations.length + 1) := by
  intro s
  have hsorted : List.Sorted locNewerFirst (List.insertionSort locNewerFirst s.locations) :=
    List.sorted_insertionSort locNewerFirst s.locations
  refine ⟨?_, ?_, ?_, ?_⟩
  · simp only [get_locations_endpoint, get_recent_locations, List.length_map, List.length_take]
    exact Nat.min_le_left _ _
  · simp only [get_locations_endpoint, get_recent_locations]
    rw [List.pairwise_map]
    exact (List.Pairwise.sublist (List.take_sublist 10 _) hsorted)
  · refine ⟨(List.insertionSort locNewerFirst s.locations).take 10,
      (List.insertionSort locNewerFirst s.locations).drop 10, ?_, rfl, ?_⟩
    · rw [List.take_append_drop]
      exact (List.perm_insertionSort locNewerFirst s.locations).symm
    · have hpw : List.Pairwise locNewerFirst
          ((List.insertionSort locNewerFirst s.locations).take 10 ++
           (List.insertionSort locNewerFirst s.locations).drop 10) := by
        rw [List.take_append_drop]
        exact hsorted
      exact fun x hx y hy => (List.pairwise_append.mp hpw).2.2 x hx y hy
  · intro lat lon ts
    simp [add_location]

theorem recent_locations_cap_order_projection_witness :
    (get_locations_endpoint locState).length ≤ 10 ∧
    List.Pairwise (fun a b : LocationResp => b.timestamp ≤ a.timestamp)
      (get_locations_endpoint locState) ∧
    ((add_location locState 7 8 100).2).locations.length = locState.locations.length + 1 :=
  have h := recent_locations_cap_order_projection locState
  ⟨h.1, h.2.1, h.2.2.2 7 8 100⟩

end MileTracker
